import Mathlib

/-!
Verification of the coderik.nl metadata resolver and header state controller.

The definitions below are shallow embeddings of the TypeScript/Vue source:
  * `formatCanonicalURL` and the BaseHead frontmatter (title, image and
    canonical-URL resolution) from the BaseHead component;
  * the scroll handler, mount-time background check and template class
    binding, the drawer toggle and the social-link filter from the header
    component;
  * the social-link configuration from `src/site-config.ts`.

Strings are modelled by Lean `String`; the JavaScript string operations the
source uses (`includes`, the anchored regex replace `/\/?$/`) are expressed
through `String.data` so that their behaviour is explicit.
-/

namespace Coderik

/-- JavaScript `path.includes('?')` from the BaseHead frontmatter:
`true` iff the character `?` occurs in the string. -/
def hasQueryParams (s : String) : Bool :=
  s.data.any (fun c => c == '?')

/-- JavaScript `path.replace(/\/?$/, repl)`: the non-global anchored regex
`/\/?$/` matches the final `/` of the string when the string ends with `/`,
and the empty string at the end otherwise; the (pattern-free) replacement
is substituted for the match.  So a single trailing slash, if present, is
replaced by `repl`, and otherwise `repl` is appended. -/
def replaceTrailingSlash (s : String) (repl : String) : String :=
  if s.data.getLast? = some '/' then
    String.mk (s.data.dropLast ++ repl.data)
  else
    String.mk (s.data ++ repl.data)

/-- `formatCanonicalURL` from the BaseHead frontmatter (the argument already
converted to a string, as by `url.toString()`):

```ts
const path = url.toString()
const hasQueryParams = path.includes('?')
if (hasQueryParams) path.replace(/\/?$/, '')   // result discarded
return path.replace(/\/?$/, hasQueryParams ? '' : '/')
```

The replace on the third line computes a fresh string that is never
assigned, so it has no effect and is not represented. -/
def formatCanonicalURL (url : String) : String :=
  let path := url
  let hq := hasQueryParams path
  replaceTrailingSlash path (if hq then "" else "/")

example : formatCanonicalURL "https://site.test/blog?page=2" = "https://site.test/blog?page=2" := by decide
example : formatCanonicalURL "https://site.test/blog" = "https://site.test/blog/" := by decide
example : formatCanonicalURL "https://site.test/blog/" = "https://site.test/blog/" := by decide
example : formatCanonicalURL "https://site.test/blog//" = "https://site.test/blog//" := by decide
example : formatCanonicalURL "https://site.test/blog?page=2/" = "https://site.test/blog?page=2" := by decide

/-- Rebuilding a string from its character list is the identity. -/
theorem mk_data (s : String) : String.mk s.data = s := rfl

/-- On a string without `?`, `formatCanonicalURL` ends (at the character
level) by dropping a final slash when present and appending `['/']`. -/
theorem formatCanonicalURL_data_of_noQuery (u : String)
    (h : hasQueryParams u = false) :
    (formatCanonicalURL u).data =
      (if u.data.getLast? = some '/' then u.data.dropLast else u.data) ++ ['/'] := by
  unfold formatCanonicalURL replaceTrailingSlash
  simp only [h, Bool.false_eq_true, if_false]
  split <;> rfl

/-- On a string with `?`, `formatCanonicalURL` drops a final slash when
present and appends nothing. -/
theorem formatCanonicalURL_data_of_query (u : String)
    (h : hasQueryParams u = true) :
    (formatCanonicalURL u).data =
      if u.data.getLast? = some '/' then u.data.dropLast else u.data := by
  unfold formatCanonicalURL replaceTrailingSlash
  simp only [h, if_true]
  split <;> simp

/-- C1: for every URL string containing a query component (`?`),
`formatCanonicalURL` appends no trailing slash: the result is the input
with a final `/` dropped when one is present and the input otherwise (so
in particular it is a prefix of the input and nothing is appended); the
pre-query slash-strip on line 30 is a discarded no-op.  Concretely,
`"https://site.test/blog?page=2"` is returned unchanged. -/
theorem formatCanonicalURL_query_no_append :
    (∀ u : String, hasQueryParams u = true →
      (formatCanonicalURL u).data =
        if u.data.getLast? = some '/' then u.data.dropLast else u.data) ∧
    formatCanonicalURL "https://site.test/blog?page=2" =
      "https://site.test/blog?page=2" := by
  refine ⟨fun u h => formatCanonicalURL_data_of_query u h, by decide⟩

/-- Witness for C1 at the concrete inputs of the claim. -/
theorem formatCanonicalURL_query_no_append_witness :
    hasQueryParams "https://site.test/blog?page=2" = true ∧
    (formatCanonicalURL "https://site.test/blog?page=2").data =
      (if "https://site.test/blog?page=2".data.getLast? = some '/'
        then "https://site.test/blog?page=2".data.dropLast
        else "https://site.test/blog?page=2".data) :=
  ⟨by decide, formatCanonicalURL_query_no_append.1 _ (by decide)⟩

/-- C2 (counterexample): the claim that on query-free input the result ends
with *exactly one* trailing slash is false: `"https://site.test/blog//"`
has no query component, yet `formatCanonicalURL` returns it unchanged with
two trailing slashes (the anchored replace rewrites only the final slash). -/
theorem formatCanonicalURL_exactly_one_slash_false :
    ¬ (∀ u : String, hasQueryParams u = false →
        (formatCanonicalURL u).data.getLast? = some '/' ∧
        (formatCanonicalURL u).data.dropLast.getLast? ≠ some '/') := by
  intro h
  exact (h "https://site.test/blog//" (by decide)).2 (by decide)

/-- C2 (amended): for every URL string without a query component,
`formatCanonicalURL` is idempotent and its result ends with at least one
trailing slash (exactly one slash is appended when the input ends with
none; an input already ending in `/` is returned with its final slash
intact, so an input ending in `//` keeps both). -/
theorem formatCanonicalURL_idem (u : String) (h : hasQueryParams u = false) :
    formatCanonicalURL (formatCanonicalURL u) = formatCanonicalURL u ∧
    (formatCanonicalURL u).data.getLast? = some '/' := by
  have hd := formatCanonicalURL_data_of_noQuery u h
  have hq' : hasQueryParams (formatCanonicalURL u) = false := by
    unfold hasQueryParams at h ⊢
    have h1 : (if u.data.getLast? = some '/' then u.data.dropLast
        else u.data).any (fun c => c == '?') = false := by
      split
      · rw [List.any_eq_false] at h ⊢
        intro c hc
        exact h c (List.dropLast_sublist u.data |>.mem hc)
      · exact h
    rw [hd, List.any_append, h1]
    decide
  have hlast : (formatCanonicalURL u).data.getLast? = some '/' := by
    rw [hd, List.getLast?_concat]
  refine ⟨?_, hlast⟩
  have hd2 := formatCanonicalURL_data_of_noQuery _ hq'
  apply String.ext
  rw [hd2, if_pos hlast, hd, List.dropLast_concat]

/-- Witness for C2 at the claim's example: `"https://site.test/blog"` has
no query, maps to `"https://site.test/blog/"`, and mapping again is fixed. -/
theorem formatCanonicalURL_idem_witness :
    hasQueryParams "https://site.test/blog" = false ∧
    (formatCanonicalURL (formatCanonicalURL "https://site.test/blog") =
        formatCanonicalURL "https://site.test/blog" ∧
      (formatCanonicalURL "https://site.test/blog").data.getLast? = some '/') :=
  ⟨by decide, formatCanonicalURL_idem _ (by decide)⟩

/-- C9: on a URL string that contains a query component and ends with `/`,
`formatCanonicalURL` returns the input with that single final slash
removed: the query branch runs the final replace with the empty
replacement, and the anchored pattern matches exactly the one last slash. -/
theorem formatCanonicalURL_query_strips_final_slash (u : String)
    (hq : hasQueryParams u = true) (hs : u.data.getLast? = some '/') :
    formatCanonicalURL u = String.mk u.data.dropLast := by
  apply String.ext
  rw [formatCanonicalURL_data_of_query u hq, if_pos hs]

/-- Witness for C9 at `"https://site.test/blog?page=2/"`. -/
theorem formatCanonicalURL_query_strips_final_slash_witness :
    formatCanonicalURL "https://site.test/blog?page=2/" =
      String.mk "https://site.test/blog?page=2/".data.dropLast :=
  formatCanonicalURL_query_strips_final_slash _ (by decide) (by decide)

/-! ### Header state controller -/

/-- The mutable state read and written by the scroll listener installed in
`onMounted`: whether `#header` carries the `header-hide` class, and the
value of the `oldScroll` ref. -/
structure ScrollState where
  hidden : Bool
  oldScroll : Int
  deriving DecidableEq, Repr

/-- The `window` scroll listener from `onMounted`, as a step function of
the current scroll offset `scroll` (the reactive `scroll.value`):

```ts
if (scroll.value < 150) { headerEl.classList.remove('header-hide'); return }
if (scroll.value - oldScroll.value > 150) {
  headerEl.classList.add('header-hide'); oldScroll.value = scroll.value }
if (oldScroll.value - scroll.value > 150) {
  headerEl.classList.remove('header-hide'); oldScroll.value = scroll.value }
```

The two delta checks are sequential `if`s (not `else if`); the second one
reads the state left by the first. -/
def scrollHandler (scroll : Int) (st : ScrollState) : ScrollState :=
  if scroll < 150 then
    { st with hidden := false }
  else
    let st1 := if scroll - st.oldScroll > 150 then
        { hidden := true, oldScroll := scroll } else st
    if st1.oldScroll - scroll > 150 then
      { hidden := false, oldScroll := scroll } else st1

/-- The state set up before the listener runs: the header has no
`header-hide` class and `oldScroll` is initialised to the scroll offset at
mount time (`ref(unref(scroll))`). -/
def mountScrollState (s : Int) : ScrollState :=
  { hidden := false, oldScroll := s }

/-- C3: the scroll handler's case analysis — below 150 it forces the header
visible and leaves `oldScroll` untouched; at or above 150 a positive delta
above 150 hides and records, a negative delta above 150 shows and records,
and otherwise nothing changes — and the concrete run from the mount state
with `oldScroll = 0` through offsets 200, 400, 100 is hidden after the
first two events and visible at the end. -/
theorem scrollHandler_cases :
    (∀ (st : ScrollState) (s : Int), s < 150 →
      scrollHandler s st = { st with hidden := false }) ∧
    (∀ (st : ScrollState) (s : Int), ¬ s < 150 → s - st.oldScroll > 150 →
      scrollHandler s st = { hidden := true, oldScroll := s }) ∧
    (∀ (st : ScrollState) (s : Int), ¬ s < 150 → st.oldScroll - s > 150 →
      scrollHandler s st = { hidden := false, oldScroll := s }) ∧
    (∀ (st : ScrollState) (s : Int), ¬ s < 150 →
      ¬ s - st.oldScroll > 150 → ¬ st.oldScroll - s > 150 →
      scrollHandler s st = st) ∧
    ((scrollHandler 200 (mountScrollState 0)).hidden = true ∧
      (scrollHandler 400 (scrollHandler 200 (mountScrollState 0))).hidden = true ∧
      (scrollHandler 100 (scrollHandler 400 (scrollHandler 200
        (mountScrollState 0)))).hidden = false) := by
  refine ⟨fun st s h => by simp [scrollHandler, h], ?_, ?_, ?_, by decide⟩
  · intro st s h hd
    have h2 : ¬ ((s : Int) - s > 150) := by omega
    simp [scrollHandler, h, hd, h2]
  · intro st s h hd
    have h1 : ¬ ((s : Int) - st.oldScroll > 150) := by omega
    simp [scrollHandler, h, hd, h1]
  · intro st s h h1 h2
    simp [scrollHandler, h, h1, h2]

/-- Witness for C3: each case of `scrollHandler_cases` applied at a
concrete state and offset. -/
theorem scrollHandler_cases_witness :
    scrollHandler 100 ⟨true, 400⟩ = ⟨false, 400⟩ ∧
    scrollHandler 400 ⟨false, 200⟩ = ⟨true, 400⟩ ∧
    scrollHandler 200 ⟨true, 400⟩ = ⟨false, 200⟩ ∧
    scrollHandler 300 ⟨true, 250⟩ = ⟨true, 250⟩ :=
  ⟨scrollHandler_cases.1 ⟨true, 400⟩ 100 (by decide),
    scrollHandler_cases.2.1 ⟨false, 200⟩ 400 (by decide) (by decide),
    scrollHandler_cases.2.2.1 ⟨true, 400⟩ 200 (by decide) (by decide),
    scrollHandler_cases.2.2.2.1 ⟨true, 250⟩ 300 (by decide) (by decide) (by decide)⟩

/-- The one-time check in `onMounted`:
`if (document.documentElement.scrollTop > 100) headerEl.classList.add('header-bg-color')`
applied to the scroll offset at mount time. -/
def mountBgCheck (scrollTop : Int) : Bool :=
  scrollTop > 100

/-- The reactive template binding on the header element:
`:class="{ 'header-bg-color': scroll > 20 }"`, re-evaluated by the
framework whenever the scroll offset signal changes. -/
def headerBgColorBinding (scroll : Int) : Bool :=
  scroll > 20

/-- Whether the header carries the `header-bg-color` class, given the
scroll offset at mount time and the current scroll offset: the class is
contributed either by the one-time mount check or by the reactive class
binding. -/
def headerBgColor (initialScrollTop scroll : Int) : Bool :=
  mountBgCheck initialScrollTop || headerBgColorBinding scroll

/-- C4 (counterexample): the claim that the solid-background state is
decided once at mount and never re-evaluated on later scroll offsets is
false: mounting at offset 0 leaves the mount check negative, yet at a
later offset of 50 the reactive `scroll > 20` class binding makes the
header solid. -/
theorem headerBgColor_not_mount_only :
    ¬ (∀ initialScrollTop scroll : Int,
        headerBgColor initialScrollTop scroll = mountBgCheck initialScrollTop) := by
  intro h
  have := h 0 50
  simp [headerBgColor, mountBgCheck, headerBgColorBinding] at this

/-- C4 (amended): the one-time mount check sets the background solid iff
the initial offset exceeds 100 (so 150 yields `true` and 0 yields
`false`), but solidity is additionally re-evaluated reactively: the header
carries the background class iff the mount check fired or the current
scroll offset exceeds 20. -/
theorem headerBgColor_spec :
    mountBgCheck 150 = true ∧ mountBgCheck 0 = false ∧
    (∀ initialScrollTop scroll : Int,
      headerBgColor initialScrollTop scroll = true ↔
        (100 < initialScrollTop ∨ 20 < scroll)) := by
  refine ⟨by decide, by decide, fun i s => ?_⟩
  simp [headerBgColor, mountBgCheck, headerBgColorBinding]

/-- The inline styles read and written by `toggleNavDrawer`: the drawer's
`style.transform` and the mask's `style.display`.  At first render both
inline styles are empty strings; the stylesheet then keeps the drawer
translated out (`translateX(-100%)`) and the mask not displayed. -/
structure DrawerState where
  transform : String
  display : String
  deriving DecidableEq, Repr

/-- `toggleNavDrawer` from the header component:

```ts
if (drawer.style.transform === `translateX(0%)`) {
  drawer.style.transform = `translateX(-100%)`; mask.style.display = `none`
} else {
  drawer.style.transform = `translateX(0%)`; mask.style.display = `block`
}
```
-/
def toggleNavDrawer (st : DrawerState) : DrawerState :=
  if st.transform = "translateX(0%)" then
    { transform := "translateX(-100%)", display := "none" }
  else
    { transform := "translateX(0%)", display := "block" }

/-- The drawer is open exactly when its inline transform is
`translateX(0%)`; any other value (the initial empty inline style included)
leaves the stylesheet's `translateX(-100%)` in force, i.e. closed. -/
def drawerOpen (st : DrawerState) : Bool :=
  decide (st.transform = "translateX(0%)")

/-- The dismissal mask is shown (interactive) exactly when its inline
display is `block`; any other value (the initial empty inline style
included) leaves the stylesheet's `display: none` in force. -/
def maskShown (st : DrawerState) : Bool :=
  decide (st.display = "block")

/-- C7: toggling twice is the identity on the drawer's observable state —
for every state whose mask visibility agrees with the drawer's open state
(which holds for the initial state, where neither element has an inline
style, and for every state the toggle produces), two applications of
`toggleNavDrawer` restore both the open/closed status of the drawer and
the shown/hidden status of the mask; in particular two consecutive toggles
from a closed state end closed. -/
theorem toggleNavDrawer_involution (st : DrawerState)
    (h : maskShown st = drawerOpen st) :
    (drawerOpen (toggleNavDrawer (toggleNavDrawer st)) = drawerOpen st ∧
      maskShown (toggleNavDrawer (toggleNavDrawer st)) = maskShown st) ∧
    (drawerOpen st = false →
      drawerOpen (toggleNavDrawer (toggleNavDrawer st)) = false) := by
  by_cases hb : st.transform = "translateX(0%)" <;>
    simp [maskShown, drawerOpen, hb] at h <;>
    simp [toggleNavDrawer, drawerOpen, maskShown, hb, h]

/-- Witness for C7 at the initial state (no inline styles set): the mask
agrees with the drawer there, and a double toggle preserves the closed
drawer and hidden mask. -/
theorem toggleNavDrawer_involution_witness :
    maskShown ⟨"", ""⟩ = drawerOpen ⟨"", ""⟩ ∧
    ((drawerOpen (toggleNavDrawer (toggleNavDrawer ⟨"", ""⟩)) =
        drawerOpen (⟨"", ""⟩ : DrawerState) ∧
      maskShown (toggleNavDrawer (toggleNavDrawer ⟨"", ""⟩)) =
        maskShown (⟨"", ""⟩ : DrawerState)) ∧
    (drawerOpen (⟨"", ""⟩ : DrawerState) = false →
      drawerOpen (toggleNavDrawer (toggleNavDrawer ⟨"", ""⟩)) = false)) :=
  ⟨by decide, toggleNavDrawer_involution ⟨"", ""⟩ (by decide)⟩

/-! ### Social-link configuration and the header's computed filter -/

/-- The value of a configuration entry's optional `header` field: absent,
a boolean, or a string (the declared entries use icon-name strings). -/
inductive HeaderFlag where
  | none
  | bool (b : Bool)
  | str (s : String)
  deriving DecidableEq, Repr

/-- A `siteConfig.socialLinks` entry: `{ text, href, icon, header? }`. -/
structure SocialLink where
  text : String
  href : String
  icon : String
  header : HeaderFlag
  deriving DecidableEq, Repr

/-- Whether the character list `pat` is a prefix of `l`. -/
def prefixAt : List Char → List Char → Bool
  | [], _ => true
  | _ :: _, [] => false
  | p :: ps, c :: cs => p == c && prefixAt ps cs

/-- Whether the character list `pat` occurs contiguously anywhere in `l`. -/
def occursIn (pat : List Char) : List Char → Bool
  | [] => prefixAt pat []
  | c :: cs => prefixAt pat (c :: cs) || occursIn pat cs

/-- JavaScript `s.includes(pat)`: substring occurrence at character level. -/
def includesStr (s pat : String) : Bool :=
  occursIn pat.data s.data

/-- The GitHub entry of `siteConfig.socialLinks` as written in
`src/site-config.ts`. -/
def githubConfigEntry : SocialLink :=
  { text := "GitHub", href := "https://github.com/erikvdven",
    icon := "i-simple-icons-github", header := .str "i-ri-github-line" }

/-- The callback of the `socialLinks` computed filter, returning the
(possibly mutated) entry together with the truthiness of the callback's
return value:

```ts
if (link.header && typeof link.header === 'boolean') { return link }
else if (link.header && typeof link.header === 'string') {
  link.icon = link.header.includes('i-') ? link.header : link.icon
  return link
} else { return false }
```
-/
def socialLinkCallback (link : SocialLink) : SocialLink × Bool :=
  match link.header with
  | .bool b => (link, b)
  | .str s =>
      if s = "" then (link, false)
      else ({ link with icon := if includesStr s "i-" then s else link.icon }, true)
  | .none => (link, false)

/-- The `socialLinks` computed property: `siteConfig.socialLinks.filter(cb)`
— the entries on which the callback returned a truthy value, each in the
state the callback left it in. -/
def socialLinksComputed (links : List SocialLink) : List SocialLink :=
  (links.map socialLinkCallback).filterMap fun p => if p.2 then some p.1 else none

/-- The state of the configuration array after the filter has run (the
callback mutates the entries in place). -/
def socialLinksAfter (links : List SocialLink) : List SocialLink :=
  links.map fun l => (socialLinkCallback l).1

/-- `siteConfig.socialLinks` from `src/site-config.ts`: the GitHub entry
and a Linkedin entry that carries no `header` field. -/
def siteConfigSocialLinks : List SocialLink :=
  [ githubConfigEntry,
    { text := "Linkedin", href := "",
      icon := "i-simple-icons-linkedin", header := .none } ]

/-- C10: the filter keeps an entry iff its `header` field is truthy (the
boolean `true` or a non-empty string), it overwrites the kept entry's
`icon` with the `header` string when that string contains `"i-"` and
leaves the entry unchanged otherwise, and on the repository's actual
configuration it yields exactly the GitHub entry with its icon replaced by
the header icon string. -/
theorem socialLinks_filter_spec :
    (∀ l : SocialLink,
      (socialLinkCallback l).2 =
        (match l.header with
          | .bool b => b
          | .str s => !(s = "")
          | .none => false) ∧
      (socialLinkCallback l).1 =
        (match l.header with
          | .str s => if includesStr s "i-" then { l with icon := s } else l
          | _ => l)) ∧
    socialLinksComputed siteConfigSocialLinks =
      [ { text := "GitHub", href := "https://github.com/erikvdven",
          icon := "i-ri-github-line", header := .str "i-ri-github-line" } ] := by
  refine ⟨fun l => ?_, by decide⟩
  obtain ⟨t, hf, ic, hd⟩ := l
  cases hd with
  | bool b => simp [socialLinkCallback]
  | none => simp [socialLinkCallback]
  | str s =>
      by_cases hs : s = ""
      · subst hs
        simp [socialLinkCallback, includesStr, occursIn, prefixAt]
      · by_cases hi : includesStr s "i-" = true <;>
          simp [socialLinkCallback, hs, hi]

/-- C5 (counterexample): computing the header social-link list does change
a field of a configuration entry: the filter's callback overwrites the
GitHub entry's `icon` (`"i-simple-icons-github"`) with its `header` string
(`"i-ri-github-line"`). -/
theorem socialLinks_config_mutated :
    ¬ (∀ l ∈ siteConfigSocialLinks,
        (socialLinkCallback l).1.text = l.text ∧
        (socialLinkCallback l).1.href = l.href ∧
        (socialLinkCallback l).1.icon = l.icon ∧
        (socialLinkCallback l).1.header = l.header) := by
  intro h
  have hg := h githubConfigEntry (by decide)
  exact absurd hg.2.2.1 (by decide)

/-- C5 (amended): the `text`, `href` and `header` fields of every
configuration entry are never changed by the filter; the `icon` field is
also unchanged except for entries whose `header` is a string containing
`"i-"`, where the callback overwrites `icon` with the `header` string. -/
theorem socialLinkCallback_frame (l : SocialLink) :
    ((socialLinkCallback l).1.text = l.text ∧
      (socialLinkCallback l).1.href = l.href ∧
      (socialLinkCallback l).1.header = l.header) ∧
    (socialLinkCallback l).1.icon =
      (match l.header with
        | .str s => if includesStr s "i-" then s else l.icon
        | _ => l.icon) := by
  obtain ⟨t, hf, ic, hd⟩ := l
  cases hd with
  | bool b => simp [socialLinkCallback]
  | none => simp [socialLinkCallback]
  | str s =>
      by_cases hs : s = ""
      · subst hs
        simp [socialLinkCallback, includesStr, occursIn, prefixAt]
      · by_cases hi : includesStr s "i-" = true <;>
          simp [socialLinkCallback, hs, hi]

/-! ### Title composition -/

/-- The site title from `src/site-config.ts` (`siteConfig.title`). -/
def siteTitle : String :=
  "Coderik"

/-- The BaseHead title:
`[Astro.props.title, siteConfig.title].filter(Boolean).join(' | ')` —
the page title is an optional string (`undefined` is `Option.none`),
`filter(Boolean)` drops absent and empty entries, and the survivors are
joined with `" | "`. -/
def title (pageTitle : Option String) (st : String) : String :=
  String.intercalate " | "
    (([pageTitle, some st].filterMap id).filter fun s => decide (s ≠ ""))

/-- Joining a one-element list inserts no separator. -/
theorem intercalate_single (s a : String) : String.intercalate s [a] = a := rfl

/-- Joining a two-element list inserts the separator exactly once,
between the two elements. -/
theorem intercalate_pair (s a b : String) :
    String.intercalate s [a, b] = a ++ s ++ b := rfl

example : title (some "Post") "Coderik" = "Post | Coderik" := by decide
example : title none "Coderik" = "Coderik" := by decide
example : title (some "") "Coderik" = "Coderik" := by decide

/-- C6 (counterexample): the resolved title can start with the separator
`" | "`: a page title that itself begins with the separator (here
`" | x"`) is non-empty, survives `filter(Boolean)`, and carries its
leading separator into `" | x | Coderik"`, even though the site title is
non-empty. -/
theorem title_sep_at_boundary :
    ¬ (∀ (pt : Option String) (st : String), st ≠ "" →
        " | ".data.isPrefixOf (title pt st).data = false) := by
  intro h
  exact absurd (h (some " | x") "Coderik" (by decide)) (by decide)

/-- C6 (amended): the resolved title is the site title alone when the page
title is absent or empty, and `pageTitle ++ " | " ++ siteTitle` otherwise:
the join never inserts a leading or trailing separator of its own (one can
appear at a boundary only when a title part itself starts or ends with
`" | "`, as the counterexample shows). -/
theorem title_spec (pt : Option String) (st : String) (h : st ≠ "") :
    title pt st =
      (match pt with
        | some p => if p = "" then st else p ++ " | " ++ st
        | none => st) ∧
    ((pt = none ∨ pt = some "") → title pt st = st) := by
  cases pt with
  | none =>
      refine ⟨?_, fun _ => ?_⟩ <;> simp [title, h, intercalate_single]
  | some p =>
      by_cases hp : p = ""
      · subst hp
        refine ⟨?_, fun _ => ?_⟩ <;> simp [title, h, intercalate_single]
      · refine ⟨?_, fun hor => ?_⟩
        · simp [title, h, hp, intercalate_pair]
        · rcases hor with h1 | h1 <;> simp_all

/-- Witness for C6 (amended) with the page title absent and the actual
site title. -/
theorem title_spec_witness : title none "Coderik" = "Coderik" :=
  (title_spec none "Coderik" (by decide)).2 (Or.inl rfl)

/-! ### URL resolution and the full metadata resolver -/

/-- A parsed absolute URL: scheme, non-empty host, and the path together
with any query and fragment (always beginning with `/`). -/
structure URLRec where
  scheme : String
  host : String
  path : String
  deriving DecidableEq, Repr

/-- Serialisation of a parsed URL, as `url.toString()` produces it. -/
def URLRec.render (u : URLRec) : String :=
  u.scheme ++ "://" ++ u.host ++ u.path

/-- Split a character list at the first occurrence of `://`, returning the
part before it and the part after it, or `none` when `://` is absent. -/
def splitSchemeAux : List Char → Option (List Char × List Char)
  | [] => Option.none
  | c :: cs =>
      if prefixAt [':', '/', '/'] (c :: cs) then some ([], cs.drop 2)
      else
        match splitSchemeAux cs with
        | some (sch, rest) => some (c :: sch, rest)
        | Option.none => Option.none

/-- Models the platform's WHATWG `new URL(input)` parse of an absolute URL
(a builtin, not repository code) on the fragment this component exercises:
the input must have a non-empty scheme before `://` and a non-empty host
after it — otherwise the constructor throws (`none`), as for `"http://"` —
and the remainder (path, query, fragment) is kept verbatim, with a bare
authority getting the path `/`. -/
def parseAbsoluteURL (s : String) : Option URLRec :=
  match splitSchemeAux s.data with
  | some (sch, rest) =>
      if sch = [] then Option.none
      else
        let host := rest.takeWhile fun c => c != '/'
        let path := rest.dropWhile fun c => c != '/'
        if host = [] then Option.none
        else some ⟨String.mk sch, String.mk host,
          String.mk (if path = [] then ['/'] else path)⟩
  | Option.none => Option.none

/-- The characters of `base.path` up to and including its last `/`: the
directory against which a relative reference is resolved. -/
def dirOf (l : List Char) : List Char :=
  (l.reverse.dropWhile fun c => c != '/').reverse

/-- Models the platform's WHATWG `new URL(input, base)` constructor (a
builtin, not repository code) on the fragment this component exercises:
an absolute input is parsed on its own and an input containing `://` that
does not parse makes the constructor throw (`none`); otherwise the input
is resolved against the base — the empty input yields the base itself, a
root-relative input replaces the base's path, and any other input is
appended to the base path's directory.  (Dot-segments, bare-query and
protocol-relative references are resolved as plain paths; none of the
results proved below depends on those cases.) -/
def newURL (input : String) (base : URLRec) : Option URLRec :=
  match parseAbsoluteURL input with
  | some u => some u
  | Option.none =>
      if occursIn [':', '/', '/'] input.data then Option.none
      else if input = "" then some base
      else if input.data.head? = some '/' then some { base with path := input }
      else some { base with path := String.mk (dirOf base.path.data ++ input.data) }

/-- `Astro.site`, the fixed site base URL `https://coderik.nl/` from
`astro.config.ts`. -/
def siteURL : URLRec :=
  ⟨"https", "coderik.nl", "/"⟩

/-- The `image` prop shape declared by BaseHead:
`{ src: string; alt?: string }`. -/
structure ImageMeta where
  src : String
  alt : Option String
  deriving DecidableEq, Repr

/-- `resolvedImage` from the BaseHead frontmatter:

```ts
const resolvedImage = image?.src
  ? { src: new URL(image.src, Astro.site).toString(), alt: image.alt }
  : undefined
```

`some none` is the `undefined` result (image absent, or falsy empty
`src`); the outer `none` is `new URL` throwing.  The default
`image = siteConfig.image` is `undefined`, because `siteConfig` declares
no `image` field, so an absent prop stays absent. -/
def resolvedImage (image : Option ImageMeta) (site : URLRec) :
    Option (Option (String × Option String)) :=
  match image with
  | Option.none => some Option.none
  | some img =>
      if img.src = "" then some Option.none
      else
        match newURL img.src site with
        | some u => some (some (u.render, img.alt))
        | Option.none => Option.none

/-- The values the BaseHead frontmatter feeds into the rendered meta tags. -/
structure ResolvedMeta where
  title : String
  description : String
  canonicalURL : String
  image : Option (String × Option String)
  deriving DecidableEq, Repr

/-- The BaseHead frontmatter as one function of its inputs: the resolved
title, the description (defaulted to `''`), the canonical URL
(`formatCanonicalURL(new URL(Astro.request.url, Astro.site))`) and the
resolved image.  `none` means one of the two `new URL` calls threw. -/
def resolveMeta (pageTitle descr : Option String) (image : Option ImageMeta)
    (requestURL : String) (site : URLRec) : Option ResolvedMeta :=
  match newURL requestURL site with
  | Option.none => Option.none
  | some cu =>
      match resolvedImage image site with
      | Option.none => Option.none
      | some ri =>
          some { title := title pageTitle siteTitle,
                 description := descr.getD "",
                 canonicalURL := formatCanonicalURL cu.render,
                 image := ri }

example : resolveMeta none none none "https://coderik.nl/blog" siteURL =
    some ⟨"Coderik", "", "https://coderik.nl/blog/", none⟩ := by decide

/-- C8 (counterexample): the metadata resolver is not total over the
declared input shapes: with the valid request URL
`https://coderik.nl/blog` and an image whose `src` is the string
`"http://"` (a string, hence of the declared shape), `new URL(image.src,
Astro.site)` throws — the input has a scheme but an empty host — so image
resolution, and with it the whole resolution, fails. -/
theorem resolveMeta_not_total :
    ¬ (∀ (pt d : Option String) (img : Option ImageMeta) (req : String),
        (newURL req siteURL).isSome = true →
        resolveMeta pt d img req siteURL ≠ Option.none) := by
  intro h
  exact h Option.none Option.none (some ⟨"http://", Option.none⟩)
    "https://coderik.nl/blog" (by decide) (by decide)

/-- C8 (amended): resolution is a pure function of its inputs (it is a
function, with no state), and every step except image-URL parsing is
total: whenever the request URL parses against the site base and the
image is absent, has an empty `src`, or has a `src` accepted by
`new URL`, the resolver succeeds; the only reachable error branch is
`new URL(image.src, Astro.site)` throwing on a malformed non-empty `src`. -/
theorem resolveMeta_total_on_parseable (pt d : Option String)
    (img : Option ImageMeta) (req : String) (site : URLRec)
    (hreq : (newURL req site).isSome = true)
    (himg : ∀ i, img = some i → i.src ≠ "" → (newURL i.src site).isSome = true) :
    (resolveMeta pt d img req site).isSome = true := by
  unfold resolveMeta
  match hcu : newURL req site with
  | Option.none => rw [hcu] at hreq; simp at hreq
  | some cu =>
      match img with
      | Option.none => simp [resolvedImage]
      | some i =>
          by_cases hs : i.src = ""
          · simp [resolvedImage, hs]
          · have := himg i rfl hs
            match hiu : newURL i.src site with
            | Option.none => rw [hiu] at this; simp at this
            | some u => simp [resolvedImage, hs, hiu]

/-- Witness for C8 (amended): resolving the shelf page's request URL with
the blog post's image path against the actual site base succeeds. -/
theorem resolveMeta_total_on_parseable_witness :
    (resolveMeta Option.none Option.none
      (some ⟨"/repository-mapper.png", some "alt text"⟩)
      "https://coderik.nl/blog/" siteURL).isSome = true :=
  resolveMeta_total_on_parseable Option.none Option.none
    (some ⟨"/repository-mapper.png", some "alt text"⟩)
    "https://coderik.nl/blog/" siteURL (by decide)
    (fun i hi _ => by cases hi; decide)

end Coderik
